import Mathlib

/-!
Verification of the pgarachne gateway (Go) against its specification.

The Go sources are shallowly embedded: handlers from
`internal/server/server.go` become pure Lean functions over explicit
environments that model the outcomes of the database round trips
(connection success, ping success, query results, commit success),
and the connection-pool registry from `internal/database/database.go`
becomes an explicit interleaving transition system.
-/

namespace Pgarachne

/-- Embeds Go `strings.SplitN(s, " ", 2)` at the character level:
split the character list at the first space, if any. -/
def splitFirstSpace : List Char → Option (List Char × List Char)
  | [] => none
  | c :: cs =>
    if c = ' ' then some ([], cs)
    else Option.map (fun p => (c :: p.1, p.2)) (splitFirstSpace cs)

/-- Embeds `strings.SplitN(s, " ", 2)`: one part when `s` has no space,
otherwise the text before the first space and the rest. -/
def splitN2 (s : String) : List String :=
  match splitFirstSpace s.data with
  | none => [s]
  | some (a, b) => [⟨a⟩, ⟨b⟩]

/-- ASCII lowering of one character; Go `strings.ToLower` agrees with this
on the ASCII inputs the server compares ("Bearer" etc.). -/
def lowerChar (c : Char) : Char :=
  if 'A' ≤ c ∧ c ≤ 'Z' then Char.ofNat (c.toNat + 32) else c

/-- Embeds Go `strings.ToLower` (restricted to ASCII case mapping). -/
def lowerStr (s : String) : String := ⟨s.data.map lowerChar⟩

/-- Character-list prefix test, helper for `strContains`. -/
def isPrefixL : List Char → List Char → Bool
  | [], _ => true
  | _ :: _, [] => false
  | a :: as, b :: bs => a = b && isPrefixL as bs

/-- Helper for `strContains`: does `pat` occur as a contiguous run in the list? -/
def containsSubAux (pat : List Char) : List Char → Bool
  | [] => isPrefixL pat []
  | c :: rest => isPrefixL pat (c :: rest) || containsSubAux pat rest

/-- Embeds Go `strings.Contains(s, pat)`. -/
def strContains (s pat : String) : Bool := containsSubAux pat.data s.data

/-- Embeds Go `strings.ReplaceAll(role, quote, quotequote)` from
`server.go:302`: double every double-quote character. -/
def escQuotes : List Char → List Char
  | [] => []
  | c :: cs => if c = '"' then '"' :: '"' :: escQuotes cs else c :: escQuotes cs

/-- Embeds the identifier quoting of `server.go:302`:
wrap the quote-doubled role in double quotes. -/
def quoteIdent (s : String) : String := ⟨'"' :: (escQuotes s.data ++ ['"'])⟩

/-- The exact SQL text executed by `server.go:303` for the privilege switch. -/
def setRoleStmt (role : String) : String := "SET LOCAL ROLE " ++ quoteIdent role

/-- A PostgreSQL lexer fragment for the body of a quoted identifier: after an
opening double quote has been consumed, scan to the closing quote, reading a
doubled quote as one literal quote character.  Returns the identifier's
content and the unconsumed remainder of the input. -/
def scanQuoted : List Char → Option (List Char × List Char)
  | [] => none
  | c :: cs =>
    if c = '"' then
      match cs with
      | d :: ds =>
        if d = '"' then Option.map (fun p => ('"' :: p.1, p.2)) (scanQuoted ds)
        else some ([], cs)
      | [] => some ([], [])
    else Option.map (fun p => (c :: p.1, p.2)) (scanQuoted cs)

/-- A PostgreSQL lexer fragment: parse one complete quoted identifier from the
front of the input, returning its content and the unconsumed remainder. -/
def parseQuotedIdent : List Char → Option (List Char × List Char)
  | '"' :: rest => scanQuoted rest
  | _ => none

theorem scanQuoted_escQuotes (l : List Char) :
    scanQuoted (escQuotes l ++ ['"']) = some (l, []) := by
  induction l with
  | nil => rfl
  | cons c cs ih =>
    by_cases hc : c = '"'
    · subst hc
      show Option.map (fun p => ('"' :: p.1, p.2)) (scanQuoted (escQuotes cs ++ ['"'])) = _
      rw [ih]
      rfl
    · have h1 : escQuotes (c :: cs) ++ ['"'] = c :: (escQuotes cs ++ ['"']) := by
        simp [escQuotes, hc]
      rw [h1, scanQuoted.eq_def]
      simp only []
      rw [if_neg hc, ih]
      rfl

/-- Embeds `JSONRPCError` from `server.go` (`types.go` part): error code and message. -/
structure JSONRPCError where
  code : Int
  message : String
deriving DecidableEq, Repr

/-- Embeds `JSONRPCRequest`: the request envelope.  `params` is kept as its
marshalled JSON text (the handler only forwards it opaquely); `id` models the
`interface\x7b\x7d` correlation id, `none` meaning absent/null. -/
structure JSONRPCRequest where
  method : String
  params : String
  id : Option String
deriving DecidableEq, Repr

/-- Embeds `JSONRPCResponse`: the response envelope.  In Go the `ID` field has
no `omitempty`, so an unset id is serialized as null; `none` models that. -/
structure JSONRPCResponse where
  jsonrpc : String
  result : Option String
  err : Option JSONRPCError
  id : Option String
deriving DecidableEq, Repr

/-- An HTTP reply of the protected route: status code plus envelope,
modelling Go `c.JSON(status, JSONRPCResponse\x7b...\x7d)`. -/
structure Reply where
  status : Nat
  body : JSONRPCResponse
deriving DecidableEq, Repr

/-- Embeds `LoginRequest`: the direct-login body. -/
structure LoginRequest where
  login : String
  password : String
deriving DecidableEq, Repr

/-- The minted session credential of `server.go:160-163`, modelled
structurally: the JWT claims `db_role`, `db_name`, `exp` (Unix seconds), and
the key the token is signed with (`secret = cfg.JWTSecret` models signing
with the process-wide secret). -/
structure SessionToken where
  dbRole : String
  dbName : String
  exp : Nat
  secret : String
deriving DecidableEq, Repr

/-- Environment of `handleLogin`: outcomes of its effects.  `openOk` models
`sql.Open` succeeding, `pingOk login password dbname` models the verification
`PingContext` (wire-level authentication) succeeding, `signOk` models
`token.SignedString` succeeding; `now` is `time.Now().Unix()`. -/
structure LoginEnv where
  openOk : Bool
  pingOk : String → String → String → Bool
  now : Nat
  jwtExpiryHours : Nat
  jwtSecret : String
  signOk : Bool

/-- The four reply shapes of `handleLogin`. -/
inductive LoginResult where
  | badRequest (msg : String)
  | serverError (msg : String)
  | unauthorized (msg : String)
  | ok (token : SessionToken)
deriving DecidableEq, Repr

/-- Embeds `handleLogin` (`server.go:121-171`).  `body = none` models a
`ShouldBindJSON` failure; `database` is the `:database` path parameter. -/
def handleLogin (env : LoginEnv) (database : String) (body : Option LoginRequest) : LoginResult :=
  match body with
  | none => .badRequest "Invalid request body"
  | some req =>
    if env.openOk = false then .serverError "Internal authentication error"
    else if env.pingOk req.login req.password database = false then
      .unauthorized "Invalid login or password"
    else
      let expirationTime := env.now + env.jwtExpiryHours * 3600
      if env.signOk = false then .serverError "Failed to create session token"
      else .ok ⟨req.login, database, expirationTime, env.jwtSecret⟩

/-- The claims of a parsed JWT, as read by `authMiddleware`
(`server.go:202-204`): `none` models a claim that is missing or not a string. -/
structure JWTClaims where
  dbRole : Option String
  dbName : Option String
deriving DecidableEq, Repr

/-- Environment of `authMiddleware`.  `jwtVerify tok = some c` models
`jwt.Parse` succeeding with an HMAC-signed, unexpired token whose claims are
`c` (`err == nil && token.Valid` with the HMAC method check); `none` models
any parse/signature/expiry failure.  `connOk` models `database.GetConnection`
succeeding for a database name; `verifyApiToken tok` models the
`SELECT pgarachne.verify_api_token($1)` row scan: `none` is a query error,
`some none` a NULL role, `some (some r)` a role name. -/
structure AuthEnv where
  jwtVerify : String → Option JWTClaims
  connOk : String → Bool
  verifyApiToken : String → Option (Option String)

/-- Outcome of the middleware: abort with an HTTP status and error message,
or proceed into the handler with the resolved `db_role`. -/
inductive AuthOutcome where
  | abort (status : Nat) (msg : String)
  | proceed (dbRole : String)
deriving DecidableEq, Repr

/-- Middleware outcome plus instrumentation: `fellThrough` records whether
control reached the opaque-token fallback section (`server.go:223-253`). -/
structure AuthResult where
  outcome : AuthOutcome
  fellThrough : Bool
deriving DecidableEq, Repr

/-- Embeds the JWT block of `authMiddleware` (`server.go:192-221`):
`none` means the block fell through to the opaque-token fallback. -/
def jwtStep (env : AuthEnv) (requestedDb authType tokenString : String) : Option AuthResult :=
  if lowerStr authType = "bearer" then
    match env.jwtVerify tokenString with
    | some c =>
      match c.dbRole, c.dbName with
      | some dbRole, some dbName =>
        if dbRole ≠ "" then
          if dbName ≠ requestedDb then
            some ⟨.abort 401 "Invalid token for this database", false⟩
          else some ⟨.proceed dbRole, false⟩
        else none
      | _, _ => none
    | none => none
  else none

/-- Embeds the opaque-token fallback of `authMiddleware` (`server.go:223-253`):
get a connection, delegate verification to the database. -/
def opaqueStep (env : AuthEnv) (requestedDb tokenString : String) : AuthResult :=
  if env.connOk requestedDb then
    match env.verifyApiToken tokenString with
    | some (some role) => ⟨.proceed role, true⟩
    | _ => ⟨.abort 401 "Invalid or expired token", true⟩
  else ⟨.abort 503 "Database connection failed", true⟩

/-- Embeds `authMiddleware` (`server.go:173-255`): header presence and shape
checks, then the JWT path, then the opaque-token fallback. -/
def authMiddleware (env : AuthEnv) (requestedDb authHeader : String) : AuthResult :=
  if authHeader = "" then ⟨.abort 401 "Authorization header is missing", false⟩
  else
    match splitN2 authHeader with
    | [authType, tokenString] =>
      match jwtStep env requestedDb authType tokenString with
      | some r => r
      | none => opaqueStep env requestedDb tokenString
    | _ => ⟨.abort 401 "Authorization header is malformed", false⟩

/-- Transaction-level events of one dispatch, in order.  `commit` is recorded
for a successful `tx.Commit()`; `rollback` for the effective rollback: the
deferred `tx.Rollback()` (`server.go:299`) finishes the transaction whenever
no commit succeeded (after a successful commit it is a no-op returning
`ErrTxDone`). -/
inductive TxEvent where
  | beginTx
  | setRole (stmt : String)
  | callFn (query : String)
  | commit
  | rollback
deriving DecidableEq, Repr

/-- Environment of `handleFunctionCall`: outcomes of its effects.  `connOk`
models `database.GetConnection`; `marshalOk` models `json.Marshal(req.Params)`;
`beginOk` models `db.BeginTx`; `execOk stmt` models `tx.ExecContext(stmt)`
for the privilege switch; `queryResult query params` models the
`tx.QueryRowContext(query, params).Scan` round trip (`.error msg` is a query
error with message `msg`, `.ok json` a scanned result); `commitOk` models
`tx.Commit()`. -/
structure DispatchEnv where
  connOk : String → Bool
  marshalOk : Bool
  beginOk : Bool
  execOk : String → Bool
  queryResult : String → String → Except String String
  commitOk : Bool

/-- Embeds the query construction of `server.go:310-317`: the fixed
capability-listing text for "capabilities", otherwise the caller-supplied
function name interpolated verbatim into the SQL text. -/
def buildCallQuery (functionName : String) : String :=
  if functionName = "capabilities" then "SELECT pgarachne.capabilities($1::jsonb)::json"
  else "SELECT " ++ functionName ++ "($1::jsonb)::json"

/-- Embeds `handleFunctionCall` (`server.go:257-340`); `body = none` models a
`ShouldBindJSON` failure.  Returns the HTTP reply and the dispatch's
transaction events. -/
def handleFunctionCall (env : DispatchEnv) (databaseName functionName dbRole : String)
    (body : Option JSONRPCRequest) : Reply × List TxEvent :=
  if functionName = "login" then
    (⟨403, ⟨"", none, some ⟨0, "Login must be called via the public endpoint"⟩, none⟩⟩, [])
  else if env.connOk databaseName = false then
    (⟨503, ⟨"", none, some ⟨0, "Database connection failed"⟩, none⟩⟩, [])
  else
    match body with
    | none => (⟨400, ⟨"", none, some ⟨0, "Invalid JSON request"⟩, none⟩⟩, [])
    | some req =>
      if dbRole = "" then
        (⟨500, ⟨"", none, some ⟨-32000, "Internal Server Error: User role not identified"⟩,
          req.id⟩⟩, [])
      else if env.marshalOk = false then
        (⟨500, ⟨"", none, some ⟨0, "Failed to marshal params"⟩, req.id⟩⟩, [])
      else if env.beginOk = false then
        (⟨503, ⟨"", none, some ⟨0, "Database unavailable"⟩, req.id⟩⟩, [])
      else if env.execOk (setRoleStmt dbRole) = false then
        (⟨403, ⟨"", none, some ⟨-32001, "Permission denied for the specified role"⟩, req.id⟩⟩,
         [.beginTx, .setRole (setRoleStmt dbRole), .rollback])
      else
        match env.queryResult (buildCallQuery functionName) req.params with
        | .error emsg =>
          if strContains emsg "does not exist" then
            (⟨404, ⟨"", none, some ⟨0, "Function does not exist"⟩, req.id⟩⟩,
             [.beginTx, .setRole (setRoleStmt dbRole), .callFn (buildCallQuery functionName),
              .rollback])
          else
            (⟨500, ⟨"", none, some ⟨0, "Function call failed: " ++ emsg⟩, req.id⟩⟩,
             [.beginTx, .setRole (setRoleStmt dbRole), .callFn (buildCallQuery functionName),
              .rollback])
        | .ok resultJSON =>
          if env.commitOk = false then
            (⟨500, ⟨"", none, some ⟨0, "Transaction commit failed"⟩, req.id⟩⟩,
             [.beginTx, .setRole (setRoleStmt dbRole), .callFn (buildCallQuery functionName),
              .rollback])
          else
            (⟨200, ⟨"2.0", some resultJSON, none, req.id⟩⟩,
             [.beginTx, .setRole (setRoleStmt dbRole), .callFn (buildCallQuery functionName),
              .commit])

/-- The protected route `POST /api/:database/:function` (`server.go:61-63`):
`authMiddleware` runs first; an abort is sent as a `JSONRPCResponse` with the
error message and no id, otherwise `handleFunctionCall` runs with the
resolved role. -/
def protectedRoute (aenv : AuthEnv) (denv : DispatchEnv)
    (requestedDb functionName authHeader : String)
    (body : Option JSONRPCRequest) : Reply × List TxEvent :=
  match authMiddleware aenv requestedDb authHeader with
  | ⟨.abort st m, _⟩ => (⟨st, ⟨"", none, some ⟨0, m⟩, none⟩⟩, [])
  | ⟨.proceed role, _⟩ => handleFunctionCall denv requestedDb functionName role body

/-- Modelled from the spec: the strict identifier grammar required before
interpolation ("legal identifier characters, optional single schema-dot-name
qualification").  The Go code contains no such validation (the `TODO` at
`server.go:315` records its absence), so the grammar is taken from the
spec's words. -/
def isIdentChar (c : Char) : Bool := c.isAlpha || c.isDigit || c = '_'

/-- Split a character list on the dot character. -/
def splitOnDot : List Char → List (List Char)
  | [] => [[]]
  | c :: cs =>
    if c = '.' then [] :: splitOnDot cs
    else
      match splitOnDot cs with
      | [] => [[c]]
      | p :: ps => (c :: p) :: ps

/-- Modelled from the spec: a legal unqualified identifier is a nonempty run
of legal identifier characters. -/
def isIdentL (l : List Char) : Bool := decide (l ≠ []) && l.all isIdentChar

/-- Modelled from the spec: a legal procedure name is an identifier with at
most one optional schema-dot-name qualification. -/
def isValidProcName (s : String) : Bool :=
  match splitOnDot s.data with
  | [n] => isIdentL n
  | [sch, n] => isIdentL sch && isIdentL n
  | _ => false

/-- Program counter of one caller of `database.GetConnection`
(`database.go:20-56`) in the first-use scenario of the claim (previously
unseen database name, health probes succeed, pool creation succeeds):
`start` = about to do the optimistic read under `RLock`;
`waitLock` = read found nothing, about to take the exclusive lock;
`inLock` = holding the exclusive lock, about to re-check and possibly create;
`tdone` = returned a pool. -/
inductive TPC where
  | start
  | waitLock
  | inLock
  | tdone
deriving DecidableEq, Repr

/-- Shared state of the pool registry for one database name, plus the callers.
`registry` holds the registered pool's creation index, `created` counts
`sql.Open` pool creations, `lockHeld` models the write-locked `dbMutex`
(readers are blocked while a writer holds it, so `start` reads also require
the lock to be free). -/
structure PState where
  registry : Option Nat
  created : Nat
  lockHeld : Bool
  threads : List TPC
deriving DecidableEq, Repr

/-- One interleaving step by caller `i`; a caller whose next action is not
enabled (lock held, already returned, bad index) stutters.  The locked
section (re-check, create, register, unlock) is one atomic step: while
`lockHeld` no other caller can read (`RLock` blocks behind a writer) or
enter the lock, so no interleaving can observe its intermediate states. -/
def step (s : PState) (i : Nat) : PState :=
  match s.threads.get? i with
  | none => s
  | some .start =>
    if s.lockHeld then s
    else
      match s.registry with
      | some _ => { s with threads := s.threads.set i .tdone }
      | none => { s with threads := s.threads.set i .waitLock }
  | some .waitLock =>
    if s.lockHeld then s
    else { s with lockHeld := true, threads := s.threads.set i .inLock }
  | some .inLock =>
    match s.registry with
    | some _ => { s with lockHeld := false, threads := s.threads.set i .tdone }
    | none =>
      { s with registry := some s.created, created := s.created + 1,
               lockHeld := false, threads := s.threads.set i .tdone }
  | some .tdone => s

/-- Run a schedule: a list of caller indices, each taking one step. -/
def run (s : PState) : List Nat → PState
  | [] => s
  | i :: rest => run (step s i) rest

/-- Initial state: a previously-unseen database name and `n` concurrent
first-use callers. -/
def initState (n : Nat) : PState := ⟨none, 0, false, List.replicate n .start⟩

/-- All callers have returned. -/
def allDone (s : PState) : Bool := s.threads.all (· = .tdone)

/-- The inductive invariant of the first-use scenario: either nothing is
created yet and no caller has returned, or exactly one pool was created and
registered. -/
def Inv (s : PState) : Prop :=
  (s.registry = none ∧ s.created = 0 ∧ ∀ t ∈ s.threads, t ≠ TPC.tdone)
  ∨ (s.registry = some 0 ∧ s.created = 1)

theorem set_no_tdone {l : List TPC} {i : Nat} {v : TPC} (hv : v ≠ TPC.tdone)
    (hall : ∀ t ∈ l, t ≠ TPC.tdone) : ∀ t ∈ l.set i v, t ≠ TPC.tdone := by
  intro t ht
  rcases List.mem_or_eq_of_mem_set ht with hmem | heq
  · exact hall t hmem
  · rw [heq]; exact hv

theorem step_inv (s : PState) (i : Nat) (h : Inv s) : Inv (step s i) := by
  unfold step
  split
  · exact h
  · split
    · exact h
    · split
      case _ p heq =>
        rcases h with ⟨h1, _, _⟩ | ⟨h1, h2⟩
        · rw [h1] at heq; exact absurd heq (by simp)
        · exact Or.inr ⟨h1, h2⟩
      case _ heq =>
        rcases h with ⟨h1, h2, h3⟩ | ⟨h1, _⟩
        · exact Or.inl ⟨h1, h2, set_no_tdone (by simp) h3⟩
        · rw [h1] at heq; exact absurd heq (by simp)
  · split
    · exact h
    · rcases h with ⟨h1, h2, h3⟩ | ⟨h1, h2⟩
      · exact Or.inl ⟨h1, h2, set_no_tdone (by simp) h3⟩
      · exact Or.inr ⟨h1, h2⟩
  · split
    case _ p heq =>
      rcases h with ⟨h1, _, _⟩ | ⟨h1, h2⟩
      · rw [h1] at heq; exact absurd heq (by simp)
      · exact Or.inr ⟨h1, h2⟩
    case _ heq =>
      rcases h with ⟨_, h2, _⟩ | ⟨h1, _⟩
      · exact Or.inr ⟨by simp [h2], by simp [h2]⟩
      · rw [h1] at heq; exact absurd heq (by simp)
  · exact h

theorem run_inv (s : PState) (acts : List Nat) (h : Inv s) : Inv (run s acts) := by
  induction acts generalizing s with
  | nil => exact h
  | cons i rest ih => exact ih (step s i) (step_inv s i h)

theorem step_length (s : PState) (i : Nat) : (step s i).threads.length = s.threads.length := by
  unfold step
  split <;> try rfl
  · split
    · rfl
    · split <;> simp
  · split
    · rfl
    · simp
  · split <;> simp

theorem run_length (s : PState) (acts : List Nat) :
    (run s acts).threads.length = s.threads.length := by
  induction acts generalizing s with
  | nil => rfl
  | cons i rest ih => rw [run, ih, step_length]

theorem initState_inv (n : Nat) : Inv (initState n) := by
  left
  refine ⟨rfl, rfl, ?_⟩
  intro t ht
  rw [List.eq_of_mem_replicate ht]
  simp

/-- Number of occurrences of one transaction event in a dispatch trace. -/
def countEv (e : TxEvent) : List TxEvent → Nat
  | [] => 0
  | x :: xs => (if x = e then 1 else 0) + countEv e xs

/-- A dispatch environment in which every database operation succeeds. -/
def denvOk : DispatchEnv :=
  ⟨fun _ => true, true, true, fun _ => true, fun _ _ => Except.ok "null", true⟩

/-- A dispatch environment in which the privilege switch fails. -/
def denvNoRole : DispatchEnv :=
  ⟨fun _ => true, true, true, fun _ => false, fun _ _ => Except.ok "null", true⟩

/-- An authentication environment in which every bearer value is invalid:
no JWT parses and the database-side verification returns NULL. -/
def aenvBad : AuthEnv := ⟨fun _ => none, fun _ => true, fun _ => some none⟩

/-- An authentication environment whose one valid signed token carries an
empty role claim and a database claim for "other". -/
def aenvEmptyRole : AuthEnv :=
  ⟨fun t => if t = "tok" then some ⟨some "", some "other"⟩ else none,
   fun _ => true, fun _ => some none⟩

/-- An authentication environment whose one valid signed token carries role
"alice" and a database claim for "other". -/
def aenvMismatch : AuthEnv :=
  ⟨fun t => if t = "tok" then some ⟨some "alice", some "other"⟩ else none,
   fun _ => true, fun _ => some none⟩

/-- A login environment in which wire-level verification always succeeds. -/
def lenvOk : LoginEnv := ⟨true, fun _ _ _ => true, 1000, 24, "procsecret", true⟩

/-- A login environment in which wire-level verification always fails. -/
def lenvBad : LoginEnv := ⟨true, fun _ _ _ => false, 1000, 24, "procsecret", true⟩

/-- C10: for every resolved role string, the `SET LOCAL ROLE` text is the
fixed prefix followed by the double-quoted, quote-doubled role, and that
quoted form parses as exactly one quoted identifier whose content is exactly
the role with nothing left over — so no role string can terminate the
identifier early or inject additional SQL into the statement. -/
theorem c10_role_quoting_sound (role : String) :
    (setRoleStmt role).data = "SET LOCAL ROLE ".data ++ (quoteIdent role).data ∧
    parseQuotedIdent (quoteIdent role).data = some (role.data, []) := by
  constructor
  · rw [setRoleStmt, String.data_append]
  · show scanQuoted (escQuotes role.data ++ ['"']) = _
    exact scanQuoted_escQuotes role.data

/-- C1: the dispatcher interpolates the caller-supplied procedure name into
the executable SQL text without validating it against the strict identifier
grammar: a name violating the grammar appears verbatim in the query that the
dispatch executes (the `TODO` at `server.go:315` records the missing
validation). -/
theorem c1_unvalidated_interpolation :
    isValidProcName "pg_sleep(1);--" = false ∧
    buildCallQuery "pg_sleep(1);--" = "SELECT pg_sleep(1);--($1::jsonb)::json" ∧
    TxEvent.callFn "SELECT pg_sleep(1);--($1::jsonb)::json" ∈
      (handleFunctionCall denvOk "shop" "pg_sleep(1);--" "alice"
        (some ⟨"pg_sleep(1);--", "null", some "1"⟩)).2 := by
  refine ⟨by decide, by decide, by decide⟩

/-- C6: whenever direct login verifies {login, secret} against database D at
the wire level, the minted session credential carries role = login,
database = D, expiry = now + configured TTL, and is signed with the
process-wide secret. -/
theorem c6_minted_credential (env : LoginEnv) (database : String) (req : LoginRequest)
    (h1 : env.openOk = true) (h2 : env.pingOk req.login req.password database = true)
    (h3 : env.signOk = true) :
    handleLogin env database (some req) =
      LoginResult.ok ⟨req.login, database, env.now + env.jwtExpiryHours * 3600,
        env.jwtSecret⟩ := by
  unfold handleLogin
  simp [h1, h2, h3]

theorem c6_witness :
    handleLogin lenvOk "shop" (some ⟨"alice", "pw"⟩) =
      LoginResult.ok ⟨"alice", "shop", 1000 + 24 * 3600, "procsecret"⟩ :=
  c6_minted_credential lenvOk "shop" ⟨"alice", "pw"⟩ rfl rfl rfl

/-- C4: when the privilege switch fails on a dispatch that reached it, the
named procedure is never invoked, the reply is the privilege-denied error,
and the transaction is rolled back with no commit. -/
theorem c4_privilege_failure_no_call (env : DispatchEnv) (db fn role : String)
    (req : JSONRPCRequest)
    (h1 : fn ≠ "login") (h2 : env.connOk db = true) (h3 : role ≠ "")
    (h4 : env.marshalOk = true) (h5 : env.beginOk = true)
    (h6 : env.execOk (setRoleStmt role) = false) :
    handleFunctionCall env db fn role (some req) =
      (⟨403, ⟨"", none, some ⟨-32001, "Permission denied for the specified role"⟩, req.id⟩⟩,
       [TxEvent.beginTx, TxEvent.setRole (setRoleStmt role), TxEvent.rollback]) ∧
    (∀ q, TxEvent.callFn q ∉ (handleFunctionCall env db fn role (some req)).2) ∧
    TxEvent.commit ∉ (handleFunctionCall env db fn role (some req)).2 := by
  have hmain : handleFunctionCall env db fn role (some req) =
      (⟨403, ⟨"", none, some ⟨-32001, "Permission denied for the specified role"⟩, req.id⟩⟩,
       [TxEvent.beginTx, TxEvent.setRole (setRoleStmt role), TxEvent.rollback]) := by
    unfold handleFunctionCall
    simp [h1, h2, h3, h4, h5, h6]
  refine ⟨hmain, ?_, ?_⟩
  · intro q
    rw [hmain]
    simp
  · rw [hmain]
    simp

theorem c4_witness :
    handleFunctionCall denvNoRole "shop" "server_info" "alice"
      (some ⟨"server_info", "null", some "7"⟩) =
      (⟨403, ⟨"", none, some ⟨-32001, "Permission denied for the specified role"⟩, some "7"⟩⟩,
       [TxEvent.beginTx, TxEvent.setRole (setRoleStmt "alice"), TxEvent.rollback]) :=
  (c4_privilege_failure_no_call denvNoRole "shop" "server_info" "alice"
    ⟨"server_info", "null", some "7"⟩ (by decide) rfl (by decide) rfl rfl rfl).1

/-- C3: every dispatch that begins a transaction ends it with exactly one
commit (on full success, replying 200) or exactly one effective rollback (on
any failure, including privilege-switch, procedure and commit failure) —
never both and never neither; a commit happens only on the success reply. -/
theorem c3_commit_xor_rollback (env : DispatchEnv) (db fn role : String)
    (body : Option JSONRPCRequest)
    (h : TxEvent.beginTx ∈ (handleFunctionCall env db fn role body).2) :
    (countEv TxEvent.commit (handleFunctionCall env db fn role body).2 = 1 ∧
     countEv TxEvent.rollback (handleFunctionCall env db fn role body).2 = 0 ∧
     (handleFunctionCall env db fn role body).1.status = 200) ∨
    (countEv TxEvent.commit (handleFunctionCall env db fn role body).2 = 0 ∧
     countEv TxEvent.rollback (handleFunctionCall env db fn role body).2 = 1 ∧
     (handleFunctionCall env db fn role body).1.status ≠ 200) := by
  unfold handleFunctionCall at h ⊢
  repeat' split at h
  all_goals simp_all [countEv]

theorem c3_witness :
    TxEvent.beginTx ∈ (handleFunctionCall denvOk "shop" "server_info" "alice"
      (some ⟨"server_info", "null", some "7"⟩)).2 ∧
    ((countEv TxEvent.commit (handleFunctionCall denvOk "shop" "server_info" "alice"
        (some ⟨"server_info", "null", some "7"⟩)).2 = 1 ∧
      countEv TxEvent.rollback (handleFunctionCall denvOk "shop" "server_info" "alice"
        (some ⟨"server_info", "null", some "7"⟩)).2 = 0 ∧
      (handleFunctionCall denvOk "shop" "server_info" "alice"
        (some ⟨"server_info", "null", some "7"⟩)).1.status = 200) ∨
     (countEv TxEvent.commit (handleFunctionCall denvOk "shop" "server_info" "alice"
        (some ⟨"server_info", "null", some "7"⟩)).2 = 0 ∧
      countEv TxEvent.rollback (handleFunctionCall denvOk "shop" "server_info" "alice"
        (some ⟨"server_info", "null", some "7"⟩)).2 = 1 ∧
      (handleFunctionCall denvOk "shop" "server_info" "alice"
        (some ⟨"server_info", "null", some "7"⟩)).1.status ≠ 200)) :=
  ⟨by decide, c3_commit_xor_rollback denvOk "shop" "server_info" "alice"
    (some ⟨"server_info", "null", some "7"⟩) (by decide)⟩

/-- C7 as amended: the caller-supplied correlation id is echoed on the
success path and on every error path reached after the request body is
parsed; the paths that reply before the body is parsed (login-forbidden,
connection failure, body-parse failure) are the exceptions recorded by the
counterexample. -/
theorem c7_id_echo_after_parse (env : DispatchEnv) (db fn role : String)
    (req : JSONRPCRequest)
    (h1 : fn ≠ "login") (h2 : env.connOk db = true) :
    ((handleFunctionCall env db fn role (some req)).1).body.id = req.id := by
  unfold handleFunctionCall
  simp only [h1, h2]
  repeat' split
  all_goals simp_all

theorem c7_witness :
    ((handleFunctionCall denvOk "shop" "server_info" "alice"
      (some ⟨"server_info", "null", some "42"⟩)).1).body.id = some "42" :=
  c7_id_echo_after_parse denvOk "shop" "server_info" "alice"
    ⟨"server_info", "null", some "42"⟩ (by decide) rfl

/-- C7 as stated is false: a request to the protected route naming the login
procedure supplies correlation id "42", yet the 403 reply carries no id (the
handler replies before parsing the body, so the id is not echoed). -/
theorem c7_counterexample :
    ((handleFunctionCall denvOk "shop" "login" "alice"
      (some ⟨"login", "null", some "42"⟩)).1).body.id = none ∧
    some "42" ≠ (none : Option String) := ⟨rfl, by decide⟩

/-- C2 as amended: a validly signed, unexpired session credential carrying a
database claim and a non-empty role claim, presented for a database other
than its embedded one, is rejected with the scope-mismatch error and the
opaque-credential fallback is never attempted. -/
theorem c2_scope_mismatch_no_fallthrough (env : AuthEnv)
    (requestedDb authHeader authType tok r d : String) (c : JWTClaims)
    (h0 : authHeader ≠ "")
    (h1 : splitN2 authHeader = [authType, tok])
    (h2 : lowerStr authType = "bearer")
    (h3 : env.jwtVerify tok = some c)
    (h4 : c.dbRole = some r) (h5 : r ≠ "")
    (h6 : c.dbName = some d) (h7 : d ≠ requestedDb) :
    authMiddleware env requestedDb authHeader =
      ⟨AuthOutcome.abort 401 "Invalid token for this database", false⟩ := by
  have hj : jwtStep env requestedDb authType tok =
      some ⟨AuthOutcome.abort 401 "Invalid token for this database", false⟩ := by
    unfold jwtStep
    simp [h2, h3, h4, h5, h6, h7]
  unfold authMiddleware
  simp [h0, h1, hj]

theorem c2_witness :
    authMiddleware aenvMismatch "shop" "Bearer tok" =
      ⟨AuthOutcome.abort 401 "Invalid token for this database", false⟩ :=
  c2_scope_mismatch_no_fallthrough aenvMismatch "shop" "Bearer tok" "Bearer" "tok"
    "alice" "other" ⟨some "alice", some "other"⟩ (by decide) (by decide) (by decide)
    rfl rfl (by decide) rfl (by decide)

/-- C2 as stated is false at an empty role claim: a validly signed, unexpired
token carrying role claim "" and database claim "other", presented for
database "shop", is not rejected with the scope-mismatch error — the
middleware falls through to the opaque-credential path (fellThrough = true)
and replies with the generic invalid-token error instead. -/
theorem c2_counterexample :
    aenvEmptyRole.jwtVerify "tok" = some ⟨some "", some "other"⟩ ∧
    "other" ≠ "shop" ∧
    authMiddleware aenvEmptyRole "shop" "Bearer tok" =
      ⟨AuthOutcome.abort 401 "Invalid or expired token", true⟩ := ⟨rfl, by decide, by decide⟩

theorem jwtStep_abort_msg {env : AuthEnv} {reqDb aT tok : String} {r : AuthResult}
    (h : jwtStep env reqDb aT tok = some r) {st : Nat} {m : String}
    (ho : r.outcome = AuthOutcome.abort st m) : m = "Invalid token for this database" := by
  unfold jwtStep at h
  repeat' split at h
  all_goals simp_all
  all_goals (cases h; simp_all)

theorem opaqueStep_abort_msg {env : AuthEnv} {reqDb tok : String} {st : Nat} {m : String}
    (ho : (opaqueStep env reqDb tok).outcome = AuthOutcome.abort st m) :
    m = "Invalid or expired token" ∨ m = "Database connection failed" := by
  unfold opaqueStep at ho
  repeat' split at ho
  all_goals simp_all

/-- C5 as amended: the direct-login failure path replies with one fixed
generic message that does not reveal whether login or secret was wrong, and
every middleware authentication failure replies with one of five fixed
messages carrying no secret material — but the middleware messages are
distinct per sub-check (see the counterexample), not one single message. -/
theorem c5_fixed_messages (lenv : LoginEnv) (d : String) (body : Option LoginRequest)
    (lmsg : String) (hl : handleLogin lenv d body = LoginResult.unauthorized lmsg)
    (aenv : AuthEnv) (reqDb header : String) (st : Nat) (amsg : String)
    (ha : (authMiddleware aenv reqDb header).outcome = AuthOutcome.abort st amsg) :
    lmsg = "Invalid login or password" ∧
    (amsg = "Authorization header is missing" ∨
     amsg = "Authorization header is malformed" ∨
     amsg = "Invalid token for this database" ∨
     amsg = "Invalid or expired token" ∨
     amsg = "Database connection failed") := by
  constructor
  · unfold handleLogin at hl
    repeat' split at hl
    all_goals simp_all
  · unfold authMiddleware at ha
    split at ha
    · simp_all
    · split at ha
      · split at ha
        case _ r heq =>
          exact Or.inr (Or.inr (Or.inl (jwtStep_abort_msg heq ha)))
        case _ heq =>
          rcases opaqueStep_abort_msg ha with h | h
          · exact Or.inr (Or.inr (Or.inr (Or.inl h)))
          · exact Or.inr (Or.inr (Or.inr (Or.inr h)))
      · simp_all

theorem c5_witness :
    ("Invalid login or password" : String) = "Invalid login or password" ∧
    (("Authorization header is missing" : String) = "Authorization header is missing" ∨
     ("Authorization header is missing" : String) = "Authorization header is malformed" ∨
     ("Authorization header is missing" : String) = "Invalid token for this database" ∨
     ("Authorization header is missing" : String) = "Invalid or expired token" ∨
     ("Authorization header is missing" : String) = "Database connection failed") :=
  c5_fixed_messages lenvBad "shop" (some ⟨"alice", "pw"⟩) "Invalid login or password" rfl
    aenvBad "shop" "" 401 "Authorization header is missing" rfl

/-- C5 as stated is false: two authentication-class failures — a missing
header and a rejected opaque credential — produce different client-visible
messages, so the messages do reveal which sub-check failed. -/
theorem c5_counterexample :
    (authMiddleware aenvBad "shop" "").outcome =
      AuthOutcome.abort 401 "Authorization header is missing" ∧
    (authMiddleware aenvBad "shop" "Bearer bad").outcome =
      AuthOutcome.abort 401 "Invalid or expired token" ∧
    ("Authorization header is missing" : String) ≠ "Invalid or expired token" :=
  ⟨rfl, by decide, by decide⟩

/-- C8 as amended: a protected-route request naming the login procedure never
opens a transaction, and whenever the bearer value passes authentication the
dispatcher rejects it with 403 and the fixed message before touching the
database; when authentication fails, the middleware's 401/503 abort is
returned instead (see the counterexample), so the login procedure is never
dispatched via the protected route. -/
theorem c8_login_forbidden (aenv : AuthEnv) (denv : DispatchEnv) (reqDb header : String)
    (body : Option JSONRPCRequest) :
    (protectedRoute aenv denv reqDb "login" header body).2 = [] ∧
    (∀ role, (authMiddleware aenv reqDb header).outcome = AuthOutcome.proceed role →
      (protectedRoute aenv denv reqDb "login" header body).1 =
        ⟨403, ⟨"", none, some ⟨0, "Login must be called via the public endpoint"⟩, none⟩⟩) := by
  unfold protectedRoute
  cases hM : authMiddleware aenv reqDb header with
  | mk outcome fell =>
    cases outcome with
    | abort st m =>
      refine ⟨rfl, ?_⟩
      intro r hr
      simp at hr
    | proceed role =>
      refine ⟨?_, ?_⟩
      · show (handleFunctionCall denv reqDb "login" role body).2 = []
        unfold handleFunctionCall
        simp
      · intro r hr
        show (handleFunctionCall denv reqDb "login" role body).1 = _
        unfold handleFunctionCall
        simp

theorem c8_witness :
    (protectedRoute aenvMismatch denvOk "shop" "login" "Bearer good"
        (some ⟨"login", "null", none⟩)).2 = [] ∧
    (∀ role, (authMiddleware aenvMismatch "shop" "Bearer good").outcome =
        AuthOutcome.proceed role →
      (protectedRoute aenvMismatch denvOk "shop" "login" "Bearer good"
          (some ⟨"login", "null", none⟩)).1 =
        ⟨403, ⟨"", none, some ⟨0, "Login must be called via the public endpoint"⟩, none⟩⟩) :=
  c8_login_forbidden aenvMismatch denvOk "shop" "Bearer good" (some ⟨"login", "null", none⟩)

/-- C8 as stated is false: with an invalid bearer credential, a protected
request naming the login procedure is rejected 401 by the middleware, not
403 — the 403 does not happen "regardless of whether the presented bearer
credential is valid". -/
theorem c8_counterexample :
    (protectedRoute aenvBad denvOk "shop" "login" "Bearer expired" none).1.status = 401 ∧
    (401 : Nat) ≠ 403 := ⟨by decide, by decide⟩

/-- C9: for one database name, under any interleaving of any number of
concurrent first-use callers of the pool registry, at most one pool is ever
created, and when all callers have returned (and there was at least one)
exactly one pool was created and registered — the double-checked locking
de-duplicates concurrent first-use creation. -/
theorem c9_single_pool_creation (n : Nat) (acts : List Nat) :
    (run (initState n) acts).created ≤ 1 ∧
    (allDone (run (initState n) acts) = true → 0 < n →
      (run (initState n) acts).created = 1 ∧
      (run (initState n) acts).registry = some 0) := by
  have hinv := run_inv (initState n) acts (initState_inv n)
  constructor
  · rcases hinv with ⟨_, h2, _⟩ | ⟨_, h2⟩ <;> simp [h2]
  · intro hdone hn
    rcases hinv with ⟨_, _, h3⟩ | ⟨h1, h2⟩
    · exfalso
      have hlen : (run (initState n) acts).threads.length = n := by
        rw [run_length]
        simp [initState]
      obtain ⟨t, l, hthreads⟩ : ∃ t l, (run (initState n) acts).threads = t :: l := by
        cases hth : (run (initState n) acts).threads with
        | nil => rw [hth] at hlen; simp at hlen; omega
        | cons a l => exact ⟨a, l, rfl⟩
      have hmem : t ∈ (run (initState n) acts).threads := by
        rw [hthreads]; simp
      have hne := h3 t hmem
      have hall : decide (t = TPC.tdone) = true := by
        have := List.all_eq_true.mp hdone
        exact this t hmem
      exact hne (of_decide_eq_true hall)
    · exact ⟨h2, h1⟩

theorem c9_witness :
    allDone (run (initState 2) [0, 0, 0, 1]) = true ∧
    (run (initState 2) [0, 0, 0, 1]).created = 1 ∧
    (run (initState 2) [0, 0, 0, 1]).registry = some 0 :=
  ⟨by decide, (c9_single_pool_creation 2 [0, 0, 0, 1]).2 (by decide) (by decide)⟩

end Pgarachne
